import Mathlib

/-!
Verification of two components of the ruzanovafit.com repository, as
shallow embeddings translated from the JavaScript source:

* the Netlify review-proxy function (Yelp reviews with a one-slot,
  one-hour in-memory cache), and
* the static-asset service worker (versioned cache, cache-first fetch
  strategy with offline document fallback).
-/

namespace ReviewProxy

/-- Freshness window of the review cache, in milliseconds
(`CACHE_TTL_MS = 60 * 60 * 1000` in the source). -/
def CACHE_TTL_MS : Nat := 60 * 60 * 1000

/-- JavaScript `v || d` for a string-valued expression `v` that may be
`undefined`: the default `d` is taken when `v` is absent or is the empty
string (both are falsy). -/
def jsOrElse (v : Option String) (d : String) : String :=
  match v with
  | none => d
  | some s => if s = "" then d else s

/-- JavaScript truthiness test `!v` for an optional string: true when the
variable is unset or holds the empty string. -/
def strFalsy (v : Option String) : Bool :=
  match v with
  | none => true
  | some s => s = ""

/-- The `user` object of an upstream review; either field may be absent
(the source reads them as `r.user?.name` and `r.user?.location`). -/
structure UpstreamUser where
  name : Option String
  location : Option String
  deriving DecidableEq

/-- One review record as delivered by the upstream API; the `user` object
itself may be absent. -/
structure UpstreamReview where
  rating : Int
  text : String
  time_created : String
  user : Option UpstreamUser
  url : String
  deriving DecidableEq

/-- Parsed JSON body of a successful upstream response; `data.reviews`
may be absent or null (the source writes `data.reviews || []`). -/
structure UpstreamData where
  reviews : Option (List UpstreamReview)
  deriving DecidableEq

deriving instance DecidableEq for Except

/-- Outcome of the `fetch` plus `res.json()` pipeline inside the try
block: the fetch itself may throw (transport error), or yield a response
with a status code whose body then either parses or throws. -/
inductive UpstreamResult where
  | fetchError (message : String)
  | response (status : Nat) (body : Except String UpstreamData)
  deriving DecidableEq

/-- Normalized user shape `{ name, location }`. -/
structure RUser where
  name : String
  location : String
  deriving DecidableEq

/-- Normalized review shape
`{ rating, text, time_created, user: { name, location }, url }`. -/
structure Review where
  rating : Int
  text : String
  time_created : String
  user : RUser
  url : String
  deriving DecidableEq

/-- The mapping the handler applies to each upstream review (the `.map`
callback): rating, text, time_created and url are copied; the user is
normalized with `r.user?.name || "Anonymous"` and
`r.user?.location || "California"`. -/
def normalizeReview (r : UpstreamReview) : Review :=
  { rating := r.rating
    text := r.text
    time_created := r.time_created
    user := { name := jsOrElse (r.user.bind UpstreamUser.name) "Anonymous"
              location := jsOrElse (r.user.bind UpstreamUser.location) "California" }
    url := r.url }

/-- Module-level mutable state of the function: `cached` is null or the
`{ reviews }` object (represented by its review list), `cacheTime` the
`Date.now()` of the last successful fetch. -/
structure ProxyState where
  cached : Option (List Review)
  cacheTime : Nat
  deriving DecidableEq

/-- JSON bodies the handler can produce: `empty` is the empty string,
`reviews rs` stands for `JSON.stringify({ reviews: rs })`, and
`errorBody e` for `JSON.stringify({ error: e, reviews: [] })`. -/
inductive Body where
  | empty
  | reviews (rs : List Review)
  | errorBody (e : String)
  deriving DecidableEq

/-- The fixed header object attached to every response of the handler. -/
def corsHeaders : List (String × String) :=
  [("Access-Control-Allow-Origin", "*"),
   ("Access-Control-Allow-Headers", "Content-Type"),
   ("Content-Type", "application/json")]

/-- A Netlify function response: status code, headers, body. -/
structure LambdaResponse where
  statusCode : Nat
  headers : List (String × String)
  body : Body
  deriving DecidableEq

/-- Result of one handler invocation: the HTTP response, the module
state after the call, and whether the upstream API was contacted. -/
structure Outcome where
  response : LambdaResponse
  state : ProxyState
  upstreamCalled : Bool
  deriving DecidableEq

/-- The part of the handler after the OPTIONS and fresh-cache checks:
credential test, upstream call, normalization and caching, error paths.
`now` is `Date.now()` during the invocation. -/
def handleUpstream (apiKey : Option String) (now : Nat)
    (upstream : UpstreamResult) (st : ProxyState) : Outcome :=
  if strFalsy apiKey then
    ⟨⟨500, corsHeaders, .errorBody "YELP_API_KEY not configured"⟩, st, false⟩
  else
    match upstream with
    | .fetchError msg => ⟨⟨500, corsHeaders, .errorBody msg⟩, st, true⟩
    | .response status body =>
      if ¬ (200 ≤ status ∧ status ≤ 299) then
        ⟨⟨status, corsHeaders, .errorBody "Yelp API error"⟩, st, true⟩
      else
        match body with
        | .error msg => ⟨⟨500, corsHeaders, .errorBody msg⟩, st, true⟩
        | .ok data =>
          let rs := (data.reviews.getD []).map normalizeReview
          ⟨⟨200, corsHeaders, .reviews rs⟩, ⟨some rs, now⟩, true⟩

/-- Shallow embedding of `exports.handler`.  `httpMethod` is
`event.httpMethod`, `apiKey` the value of `process.env.YELP_API_KEY`
(absent or set), `now` the value of `Date.now()` during the invocation,
`upstream` the behaviour the network would exhibit if the upstream call
were made, `st` the module state on entry.  The freshness comparison is
done over the integers, as JavaScript subtraction of two timestamps. -/
def handler (httpMethod : String) (apiKey : Option String) (now : Nat)
    (upstream : UpstreamResult) (st : ProxyState) : Outcome :=
  if httpMethod = "OPTIONS" then
    ⟨⟨204, corsHeaders, .empty⟩, st, false⟩
  else
    match st.cached with
    | some rs =>
      if (now : Int) - (st.cacheTime : Int) < (CACHE_TTL_MS : Int) then
        ⟨⟨200, corsHeaders, .reviews rs⟩, st, false⟩
      else handleUpstream apiKey now upstream st
    | none => handleUpstream apiKey now upstream st

/-- A concrete review used by witnesses. -/
def sampleReview : Review :=
  ⟨5, "great coach", "2024-01-01", ⟨"Sam", "San Jose"⟩, "https://yelp.example/r1"⟩

end ReviewProxy

namespace ReviewProxy

/-- Claim C1: for every GET invocation in a state where a cache entry
exists and `now - cacheTime` is strictly below one hour, the handler
returns status 200 whose body is exactly the cached payload, makes no
upstream call, and leaves the state unchanged. -/
theorem C1_fresh_cache_hit (apiKey : Option String) (now : Nat)
    (upstream : UpstreamResult) (st : ProxyState) (rs : List Review)
    (hc : st.cached = some rs)
    (hf : (now : Int) - (st.cacheTime : Int) < (CACHE_TTL_MS : Int)) :
    handler "GET" apiKey now upstream st =
      ⟨⟨200, corsHeaders, .reviews rs⟩, st, false⟩ := by
  simp [handler, hc, hf]

/-- Witness for C1 at a concrete input: a cache entry fetched at time 0,
queried at time 0, is served back with no upstream call. -/
theorem C1_fresh_cache_hit_witness :
    handler "GET" none 0 (.fetchError "offline") ⟨some [sampleReview], 0⟩ =
      ⟨⟨200, corsHeaders, .reviews [sampleReview]⟩, ⟨some [sampleReview], 0⟩, false⟩ :=
  C1_fresh_cache_hit none 0 (.fetchError "offline") ⟨some [sampleReview], 0⟩
    [sampleReview] rfl (by decide)

/-- Claim C2 as stated is refuted by the code: with no credential
configured but a fresh cache entry (here fetched at time 0 and queried
at time 0), the non-OPTIONS request is answered with status 200 from the
cache — not 500 — because the handler checks the cache before the
credential. -/
theorem C2_counterexample :
    (handler "GET" none 0 (.fetchError "offline") ⟨some [], 0⟩).response.statusCode = 200 ∧
    ¬ (handler "GET" none 0 (.fetchError "offline") ⟨some [], 0⟩).response.statusCode = 500 := by
  constructor <;> decide

/-- Claim C2, amended: for every non-OPTIONS invocation with a falsy
credential (unset or empty) and no fresh cache entry — the cache slot is
empty, or its age is at least one hour — the handler returns status 500
with the `{ error, reviews: [] }` body, makes no upstream call, and
leaves the state unchanged. -/
theorem C2_no_credential (httpMethod : String) (apiKey : Option String)
    (now : Nat) (upstream : UpstreamResult) (st : ProxyState)
    (hm : ¬ httpMethod = "OPTIONS")
    (hk : strFalsy apiKey = true)
    (hstale : st.cached = none ∨
      ¬ (now : Int) - (st.cacheTime : Int) < (CACHE_TTL_MS : Int)) :
    handler httpMethod apiKey now upstream st =
      ⟨⟨500, corsHeaders, .errorBody "YELP_API_KEY not configured"⟩, st, false⟩ := by
  rcases hstale with hnone | hold
  · simp [handler, hm, hnone, handleUpstream, hk]
  · cases hc : st.cached with
    | none => simp [handler, hm, hc, handleUpstream, hk]
    | some rs => simp [handler, hm, hc, hold, handleUpstream, hk]

/-- Witness for the amended C2: empty cache, unset key, GET request. -/
theorem C2_no_credential_witness :
    handler "GET" none 0 (.fetchError "offline") ⟨none, 0⟩ =
      ⟨⟨500, corsHeaders, .errorBody "YELP_API_KEY not configured"⟩, ⟨none, 0⟩, false⟩ :=
  C2_no_credential "GET" none 0 (.fetchError "offline") ⟨none, 0⟩
    (by decide) (by decide) (Or.inl rfl)

/-- Claim C9: every OPTIONS invocation, in every cache, credential and
network state, returns status 204 with an empty body and the fixed
headers — which contain the two permissive CORS headers — leaves the
state unchanged, and makes no upstream call. -/
theorem C9_options_preflight (apiKey : Option String) (now : Nat)
    (upstream : UpstreamResult) (st : ProxyState) :
    handler "OPTIONS" apiKey now upstream st =
      ⟨⟨204, corsHeaders, .empty⟩, st, false⟩ ∧
    ("Access-Control-Allow-Origin", "*") ∈ corsHeaders ∧
    ("Access-Control-Allow-Headers", "Content-Type") ∈ corsHeaders := by
  refine ⟨by simp [handler], by simp [corsHeaders], by simp [corsHeaders]⟩

/-- Claim C3: for every invocation that reaches a successful (2xx)
upstream response with parsed data, the handler returns status 200 with
the normalized review list, stores that list as the new cache entry with
`cacheTime = now`, and the normalization maps each upstream review to
`{ rating, text, time_created, user: { name, location }, url }` with the
JavaScript-falsy defaults "Anonymous" and "California"; in particular an
absent user object yields both defaults. -/
theorem C3_success_normalizes_and_caches (httpMethod : String)
    (apiKey : Option String) (now status : Nat) (data : UpstreamData)
    (st : ProxyState)
    (hm : ¬ httpMethod = "OPTIONS")
    (hstale : st.cached = none ∨
      ¬ (now : Int) - (st.cacheTime : Int) < (CACHE_TTL_MS : Int))
    (hk : strFalsy apiKey = false)
    (hok : 200 ≤ status ∧ status ≤ 299) :
    handler httpMethod apiKey now (.response status (.ok data)) st =
      ⟨⟨200, corsHeaders, .reviews ((data.reviews.getD []).map normalizeReview)⟩,
       ⟨some ((data.reviews.getD []).map normalizeReview), now⟩, true⟩ ∧
    ∀ r : UpstreamReview,
      normalizeReview r =
        { rating := r.rating, text := r.text, time_created := r.time_created,
          user := { name := jsOrElse (r.user.bind UpstreamUser.name) "Anonymous",
                    location := jsOrElse (r.user.bind UpstreamUser.location) "California" },
          url := r.url } ∧
      (r.user = none → (normalizeReview r).user = ⟨"Anonymous", "California"⟩) := by
  constructor
  · have hup : handleUpstream apiKey now (.response status (.ok data)) st =
        ⟨⟨200, corsHeaders, .reviews ((data.reviews.getD []).map normalizeReview)⟩,
         ⟨some ((data.reviews.getD []).map normalizeReview), now⟩, true⟩ := by
      simp [handleUpstream, hk, hok.1, hok.2]
    rcases hstale with hnone | hold
    · simp [handler, hm, hnone, hup]
    · cases hc : st.cached with
      | none => simp [handler, hm, hc, hup]
      | some rs => simp [handler, hm, hc, hold, hup]
  · intro r
    refine ⟨rfl, fun hu => ?_⟩
    simp [normalizeReview, hu, jsOrElse]

/-- Witness for C3: empty cache, key set, upstream 200 with one review
whose user object is absent; the stored and returned review carries the
defaults. -/
theorem C3_success_witness :
    handler "GET" (some "key") 7 (.response 200 (.ok ⟨some
        [⟨4, "nice", "2024-02-02", none, "https://yelp.example/r2"⟩]⟩)) ⟨none, 0⟩ =
      ⟨⟨200, corsHeaders, .reviews
          [⟨4, "nice", "2024-02-02", ⟨"Anonymous", "California"⟩, "https://yelp.example/r2"⟩]⟩,
       ⟨some [⟨4, "nice", "2024-02-02", ⟨"Anonymous", "California"⟩, "https://yelp.example/r2"⟩], 7⟩,
       true⟩ := by
  have h := C3_success_normalizes_and_caches "GET" (some "key") 7 200
    ⟨some [⟨4, "nice", "2024-02-02", none, "https://yelp.example/r2"⟩]⟩ ⟨none, 0⟩
    (by decide) (Or.inl rfl) (by decide) (by decide)
  exact h.1.trans (by decide)

/-- Claim C4: for every invocation whose upstream attempt fails — the
fetch throws, the response is non-2xx, or the 2xx body fails to parse —
the handler returns status 500 with the error message (respectively the
upstream status with the fixed error body), and the cache slot, both
payload and timestamp, is exactly the state on entry. -/
theorem C4_upstream_failure_preserves_cache (httpMethod : String)
    (apiKey : Option String) (now : Nat) (st : ProxyState)
    (hm : ¬ httpMethod = "OPTIONS")
    (hstale : st.cached = none ∨
      ¬ (now : Int) - (st.cacheTime : Int) < (CACHE_TTL_MS : Int))
    (hk : strFalsy apiKey = false) :
    (∀ msg, handler httpMethod apiKey now (.fetchError msg) st =
        ⟨⟨500, corsHeaders, .errorBody msg⟩, st, true⟩) ∧
    (∀ status body, ¬ (200 ≤ status ∧ status ≤ 299) →
        handler httpMethod apiKey now (.response status body) st =
          ⟨⟨status, corsHeaders, .errorBody "Yelp API error"⟩, st, true⟩) ∧
    (∀ status msg, 200 ≤ status → status ≤ 299 →
        handler httpMethod apiKey now (.response status (.error msg)) st =
          ⟨⟨500, corsHeaders, .errorBody msg⟩, st, true⟩) := by
  have hroute : ∀ up : UpstreamResult, handler httpMethod apiKey now up st =
      handleUpstream apiKey now up st := by
    intro up
    rcases hstale with hnone | hold
    · simp [handler, hm, hnone]
    · cases hc : st.cached with
      | none => simp [handler, hm, hc]
      | some rs => simp [handler, hm, hc, hold]
  refine ⟨fun msg => ?_, fun status body hbad => ?_, fun status msg h1 h2 => ?_⟩
  · rw [hroute]; simp [handleUpstream, hk]
  · rw [hroute]; simp [handleUpstream, hk, hbad]
  · rw [hroute]; simp [handleUpstream, hk, h1, h2]

/-- Witness for C4: stale cache (age exactly one hour), key set; an
upstream 503, a transport error, and a 200 with unparsable body each
leave the cache entry `(some [sampleReview], 0)` untouched. -/
theorem C4_upstream_failure_witness :
    handler "GET" (some "key") 3600000 (.response 503 (.ok ⟨none⟩))
        ⟨some [sampleReview], 0⟩ =
      ⟨⟨503, corsHeaders, .errorBody "Yelp API error"⟩, ⟨some [sampleReview], 0⟩, true⟩ ∧
    handler "GET" (some "key") 3600000 (.fetchError "socket hang up")
        ⟨some [sampleReview], 0⟩ =
      ⟨⟨500, corsHeaders, .errorBody "socket hang up"⟩, ⟨some [sampleReview], 0⟩, true⟩ ∧
    handler "GET" (some "key") 3600000 (.response 200 (.error "bad json"))
        ⟨some [sampleReview], 0⟩ =
      ⟨⟨500, corsHeaders, .errorBody "bad json"⟩, ⟨some [sampleReview], 0⟩, true⟩ := by
  have h := C4_upstream_failure_preserves_cache "GET" (some "key") 3600000
    ⟨some [sampleReview], 0⟩ (by decide) (Or.inr (by decide)) (by decide)
  exact ⟨h.2.1 503 (.ok ⟨none⟩) (by decide), h.1 "socket hang up",
    h.2.2 200 "bad json" (by decide) (by decide)⟩

/-- Claim C10: a successful (2xx) upstream response whose body has a
missing or null `reviews` field yields status 200 with the empty review
list, which is stored as the cache entry, so that any request within the
freshness window is then served the empty list with no upstream call;
and in general the normalized list has the same length and order as the
upstream list (element `i` is the normalization of upstream element
`i`). -/
theorem C10_missing_reviews_cached_empty (httpMethod : String)
    (apiKey : Option String) (now status : Nat) (st : ProxyState)
    (hm : ¬ httpMethod = "OPTIONS")
    (hstale : st.cached = none ∨
      ¬ (now : Int) - (st.cacheTime : Int) < (CACHE_TTL_MS : Int))
    (hk : strFalsy apiKey = false)
    (hok : 200 ≤ status ∧ status ≤ 299) :
    handler httpMethod apiKey now (.response status (.ok ⟨none⟩)) st =
      ⟨⟨200, corsHeaders, .reviews []⟩, ⟨some [], now⟩, true⟩ ∧
    (∀ (now2 : Nat) (up2 : UpstreamResult),
        (now2 : Int) - (now : Int) < (CACHE_TTL_MS : Int) →
        handler "GET" apiKey now2 up2 ⟨some [], now⟩ =
          ⟨⟨200, corsHeaders, .reviews []⟩, ⟨some [], now⟩, false⟩) ∧
    (∀ (l : List UpstreamReview),
        (l.map normalizeReview).length = l.length ∧
        ∀ i : Nat, (l.map normalizeReview).get? i = (l.get? i).map normalizeReview) := by
  refine ⟨?_, fun now2 up2 hfresh => ?_, fun l => ⟨List.length_map l normalizeReview, ?_⟩⟩
  · have hup : handleUpstream apiKey now (.response status (.ok ⟨none⟩)) st =
        ⟨⟨200, corsHeaders, .reviews []⟩, ⟨some [], now⟩, true⟩ := by
      simp [handleUpstream, hk, hok.1, hok.2]
    rcases hstale with hnone | hold
    · simp [handler, hm, hnone, hup]
    · cases hc : st.cached with
      | none => simp [handler, hm, hc, hup]
      | some rs => simp [handler, hm, hc, hold, hup]
  · simp [handler, hfresh]
  · intro i
    simp [List.get?_map]

/-- Witness for C10: upstream 204-style empty success (status 200, body
`{}`) caches the empty list; a request half an hour later serves it from
cache. -/
theorem C10_missing_reviews_witness :
    handler "GET" (some "key") 10 (.response 200 (.ok ⟨none⟩)) ⟨none, 0⟩ =
      ⟨⟨200, corsHeaders, .reviews []⟩, ⟨some [], 10⟩, true⟩ ∧
    handler "GET" (some "key") 1800010 (.fetchError "offline") ⟨some [], 10⟩ =
      ⟨⟨200, corsHeaders, .reviews []⟩, ⟨some [], 10⟩, false⟩ := by
  have h := C10_missing_reviews_cached_empty "GET" (some "key") 10 200 ⟨none, 0⟩
    (by decide) (Or.inl rfl) (by decide) (by decide)
  exact ⟨h.1, h.2.1 1800010 (.fetchError "offline") (by decide)⟩

end ReviewProxy

namespace ServiceWorker

/-- The version-stamped cache name (`CACHE_NAME` in the source). -/
def CACHE_NAME : String := "ruzanova-fitness-v4"

/-- The `type` of a fetch response; the handler only distinguishes
`basic` (same-origin) from everything else (`cors`, `opaqueRes` for
opaquely filtered cross-origin responses, `other` for the rest). -/
inductive ResponseType where
  | basic
  | cors
  | opaqueRes
  | other
  deriving DecidableEq

/-- A captured HTTP response: status, type, body. -/
structure Response where
  status : Nat
  rtype : ResponseType
  body : String
  deriving DecidableEq

/-- JavaScript `s.startsWith(p)`, as a prefix test on the character
lists of the two strings. -/
def strStartsWith (s p : String) : Bool := List.isPrefixOf p.data s.data

/-- The browser cache for one cache name: responses keyed by full
request URL. -/
abbrev SWCache := List (String × Response)

/-- `caches.match`: the first stored response whose key equals the
URL, if any. -/
def cacheMatch (c : SWCache) (url : String) : Option Response :=
  (c.find? (fun p => p.1 = url)).map Prod.snd

/-- `cache.put`: store the response under the URL, replacing any
previous entry for that URL. -/
def cachePut (c : SWCache) (url : String) (r : Response) : SWCache :=
  (url, r) :: c.filter (fun p => ¬ p.1 = url)

/-- An intercepted request: method, full URL, and `destination`
("document" for a navigable HTML document). -/
structure Request where
  method : String
  url : String
  destination : String
  deriving DecidableEq

/-- Observable outcome of the fetch listener for one request: whether
`respondWith` was invoked (`intercepted`; false means the request is
passed through to the browser untouched), the response delivered to the
page (`none` together with `intercepted = true` is a network error:
`respondWith` resolved without a Response), the cache contents
afterwards, and whether `fetch(event.request)` was performed. -/
structure FetchResult where
  intercepted : Bool
  response : Option Response
  cache : SWCache
  networkUsed : Bool
  deriving DecidableEq

/-- URL of the offline fallback document: the relative URL
`/index.html` of `caches.match` resolves against the worker origin. -/
def indexUrl (origin : String) : String := origin ++ "/index.html"

/-- Shallow embedding of the fetch listener.  `origin` is
`self.location.origin`; `network` is what `fetch(event.request)` would
produce on this request (`none`: the fetch rejects, e.g. offline). -/
def fetchHandler (origin : String) (req : Request) (c : SWCache)
    (network : Option Response) : FetchResult :=
  if ¬ req.method = "GET" then ⟨false, none, c, false⟩
  else if ¬ strStartsWith req.url origin then ⟨false, none, c, false⟩
  else
    match cacheMatch c req.url with
    | some cachedResponse => ⟨true, some cachedResponse, c, false⟩
    | none =>
      match network with
      | some resp =>
        if ¬ (resp.status = 200 ∧ resp.rtype = ResponseType.basic) then
          ⟨true, some resp, c, true⟩
        else
          ⟨true, some resp, cachePut c req.url resp, true⟩
      | none =>
        if req.destination = "document" then
          ⟨true, cacheMatch c (indexUrl origin), c, true⟩
        else ⟨true, none, c, true⟩

/-- `caches.delete`: remove the cache with the given name from the
enumerable cache names. -/
def deleteCache (names : List String) (n : String) : List String :=
  names.filter (fun m => ¬ m = n)

/-- Shallow embedding of the activate listener: enumerate the existing
cache names and delete every one that differs from `CACHE_NAME`. -/
def activateHandler (names : List String) : List String :=
  names.foldl (fun acc n => if ¬ n = CACHE_NAME then deleteCache acc n else acc) names

/-- Splits a URL at the first scheme separator `://`, returning the
scheme and the remainder.  Used, together with `hostPart`, to state the
spec notion of the origin of a request URL ("whose origin differs from
the site origin") against which the URL-prefix test of the code is
compared. -/
def schemeSplit : List Char → Option (List Char × List Char)
  | [] => none
  | c :: cs =>
    if List.isPrefixOf [':', '/', '/'] (c :: cs) then some ([], cs.drop 2)
    else (schemeSplit cs).map (fun p => (c :: p.1, p.2))

/-- The host-port part of the remainder of a URL: the characters up to
the first slash. -/
def hostPart : List Char → List Char
  | [] => []
  | c :: cs => if c = '/' then [] else c :: hostPart cs

/-- Origin of an absolute URL: scheme, separator, and host-port. -/
def urlOrigin (u : String) : Option String :=
  match schemeSplit u.data with
  | some (scheme, rest) => some (String.mk (scheme ++ [':', '/', '/'] ++ hostPart rest))
  | none => none

/-- Membership in the fold performed by the activate listener: a name
survives exactly when it was present and is either the current cache
name or never enumerated for deletion. -/
theorem mem_activate_foldl (l : List String) (acc : List String) (m : String) :
    (m ∈ l.foldl (fun acc n => if ¬ n = CACHE_NAME then deleteCache acc n else acc) acc) ↔
      m ∈ acc ∧ (m = CACHE_NAME ∨ m ∉ l) := by
  induction l generalizing acc with
  | nil => simp
  | cons n t ih =>
    simp only [List.foldl_cons]
    rw [ih]
    by_cases hn : n = CACHE_NAME
    · subst hn
      rw [if_neg (by simp)]
      simp only [List.mem_cons, not_or]
      tauto
    · rw [if_pos hn]
      have haux : m = CACHE_NAME → ¬ m = n := fun hx hxn => hn (hxn ▸ hx)
      simp only [deleteCache, List.mem_filter, List.mem_cons, not_or, decide_not,
        Bool.not_eq_true', decide_eq_false_iff_not]
      tauto

/-- Claim C6: after the activate handler runs, a cache name that existed
before activation has been deleted if and only if it differs from the
current version-stamped name, and every name still enumerable equals the
current name. -/
theorem C6_activate_purges_stale_caches (names : List String) (n : String)
    (hn : n ∈ names) :
    (n ∉ activateHandler names ↔ ¬ n = CACHE_NAME) ∧
    (∀ m ∈ activateHandler names, m = CACHE_NAME) := by
  constructor
  · rw [activateHandler, mem_activate_foldl]
    constructor
    · intro hgone hc
      exact hgone ⟨hn, Or.inl hc⟩
    · rintro hne ⟨-, hc | habs⟩
      · exact hne hc
      · exact habs hn
  · intro m hm
    rw [activateHandler, mem_activate_foldl] at hm
    rcases hm.2 with hc | habs
    · exact hc
    · exact absurd hm.1 habs

/-- Witness for C6 on a concrete cache-name list: the old version name
is deleted and only the current one remains. -/
theorem C6_activate_witness :
    ("ruzanova-fitness-v3" ∉ activateHandler ["ruzanova-fitness-v3", "ruzanova-fitness-v4"] ↔
      ¬ "ruzanova-fitness-v3" = CACHE_NAME) ∧
    (∀ m ∈ activateHandler ["ruzanova-fitness-v3", "ruzanova-fitness-v4"], m = CACHE_NAME) :=
  C6_activate_purges_stale_caches ["ruzanova-fitness-v3", "ruzanova-fitness-v4"]
    "ruzanova-fitness-v3" (by decide)

/-- Claim C5: for every intercepted same-origin GET request (URL under
the site origin), a cache hit is answered with the cached response, the
cache unchanged and no network fetch; a cache miss performs the network
fetch, returns the network response, and stores a copy under the request
URL exactly when the response has status 200 and type basic (the stored
copy being the very response returned). -/
theorem C5_cache_first_strategy (origin : String) (req : Request)
    (c : SWCache) (network : Option Response)
    (hm : req.method = "GET")
    (ho : strStartsWith req.url origin = true) :
    (∀ r, cacheMatch c req.url = some r →
        fetchHandler origin req c network = ⟨true, some r, c, false⟩) ∧
    (∀ resp, cacheMatch c req.url = none → network = some resp →
        fetchHandler origin req c network =
          ⟨true, some resp,
           if resp.status = 200 ∧ resp.rtype = ResponseType.basic
           then cachePut c req.url resp else c, true⟩) := by
  constructor
  · intro r hr
    simp [fetchHandler, hm, ho, hr]
  · intro resp hmiss hnet
    subst hnet
    by_cases hgood : resp.status = 200 ∧ resp.rtype = ResponseType.basic
    · simp [fetchHandler, hm, ho, hmiss, hgood]
    · simp [fetchHandler, hm, ho, hmiss, hgood]

/-- Witness for C5: a hit on a one-entry cache is served without the
network; a miss on the empty cache fetches a basic 200 response and
stores it. -/
theorem C5_cache_first_witness :
    fetchHandler "https://ruzanovafit.com"
        ⟨"GET", "https://ruzanovafit.com/styles.css", "style"⟩
        [("https://ruzanovafit.com/styles.css", ⟨200, .basic, "css"⟩)] none =
      ⟨true, some ⟨200, .basic, "css"⟩,
       [("https://ruzanovafit.com/styles.css", ⟨200, .basic, "css"⟩)], false⟩ ∧
    fetchHandler "https://ruzanovafit.com"
        ⟨"GET", "https://ruzanovafit.com/script.js", "script"⟩ []
        (some ⟨200, .basic, "js"⟩) =
      ⟨true, some ⟨200, .basic, "js"⟩,
       [("https://ruzanovafit.com/script.js", ⟨200, .basic, "js"⟩)], true⟩ := by
  have h1 := C5_cache_first_strategy "https://ruzanovafit.com"
    ⟨"GET", "https://ruzanovafit.com/styles.css", "style"⟩
    [("https://ruzanovafit.com/styles.css", ⟨200, .basic, "css"⟩)] none rfl (by decide)
  have h2 := C5_cache_first_strategy "https://ruzanovafit.com"
    ⟨"GET", "https://ruzanovafit.com/script.js", "script"⟩ []
    (some ⟨200, .basic, "js"⟩) rfl (by decide)
  refine ⟨h1.1 ⟨200, .basic, "css"⟩ (by decide), ?_⟩
  exact (h2.2 ⟨200, .basic, "js"⟩ (by decide) rfl).trans (by decide)

/-- Claim C7 as stated is refuted by the code: the same-origin test is a
URL-prefix test (`url.startsWith(origin)`), so this offline navigation
to `https://ruzanovafit.com.evil.example/`, whose origin differs from
`https://ruzanovafit.com`, is not passed through untouched — it is
intercepted and even answered from the cache with the cached root
document of the site. -/
theorem C7_counterexample :
    ¬ urlOrigin "https://ruzanovafit.com.evil.example/" = some "https://ruzanovafit.com" ∧
    fetchHandler "https://ruzanovafit.com"
        ⟨"GET", "https://ruzanovafit.com.evil.example/", "document"⟩
        [("https://ruzanovafit.com/index.html", ⟨200, .basic, "home"⟩)] none =
      ⟨true, some ⟨200, .basic, "home"⟩,
       [("https://ruzanovafit.com/index.html", ⟨200, .basic, "home"⟩)], true⟩ := by
  constructor <;> decide

/-- Claim C7, amended: the fetch listener passes through untouched —
no interception, no cache read or write, no network use — every request
whose method is not GET, and every request whose URL does not start
with the site origin string (the code approximates the origin
comparison by this URL-prefix test). -/
theorem C7_pass_through (origin : String) (req : Request) (c : SWCache)
    (network : Option Response)
    (h : ¬ req.method = "GET" ∨ strStartsWith req.url origin = false) :
    fetchHandler origin req c network = ⟨false, none, c, false⟩ := by
  rcases h with hm | ho
  · simp [fetchHandler, hm]
  · by_cases hm : req.method = "GET"
    · simp [fetchHandler, hm, ho]
    · simp [fetchHandler, hm]

/-- Witness for the amended C7: a POST to the site and a GET to a
third-party URL are both left untouched. -/
theorem C7_pass_through_witness :
    fetchHandler "https://ruzanovafit.com"
        ⟨"POST", "https://ruzanovafit.com/api", "empty"⟩ [] none =
      ⟨false, none, [], false⟩ ∧
    fetchHandler "https://ruzanovafit.com"
        ⟨"GET", "https://api.emailjs.com/send", "empty"⟩ [] none =
      ⟨false, none, [], false⟩ :=
  ⟨C7_pass_through "https://ruzanovafit.com"
      ⟨"POST", "https://ruzanovafit.com/api", "empty"⟩ [] none (Or.inl (by decide)),
   C7_pass_through "https://ruzanovafit.com"
      ⟨"GET", "https://api.emailjs.com/send", "empty"⟩ [] none (Or.inr (by decide))⟩

/-- Claim C8: for an intercepted same-origin GET request that misses the
cache and whose network fetch fails, a document request is answered with
the cached root document when present; otherwise — non-document request,
or root document not cached — the listener resolves without a response,
which the page observes as a failed fetch.  The cache is unchanged in
every case. -/
theorem C8_offline_document_fallback (origin : String) (req : Request)
    (c : SWCache)
    (hm : req.method = "GET")
    (ho : strStartsWith req.url origin = true)
    (hmiss : cacheMatch c req.url = none) :
    (∀ r, req.destination = "document" → cacheMatch c (indexUrl origin) = some r →
        fetchHandler origin req c none = ⟨true, some r, c, true⟩) ∧
    ((¬ req.destination = "document" ∨ cacheMatch c (indexUrl origin) = none) →
        fetchHandler origin req c none = ⟨true, none, c, true⟩) := by
  constructor
  · intro r hdoc hroot
    simp [fetchHandler, hm, ho, hmiss, hdoc, hroot]
  · rintro (hdoc | hroot)
    · simp [fetchHandler, hm, ho, hmiss, hdoc]
    · by_cases hdoc : req.destination = "document"
      · simp [fetchHandler, hm, ho, hmiss, hdoc, hroot]
      · simp [fetchHandler, hm, ho, hmiss, hdoc]

/-- Witness for C8: offline navigation to an uncached page returns the
cached root document; an offline script request fails through. -/
theorem C8_offline_document_witness :
    fetchHandler "https://ruzanovafit.com"
        ⟨"GET", "https://ruzanovafit.com/booking.html", "document"⟩
        [("https://ruzanovafit.com/index.html", ⟨200, .basic, "home"⟩)] none =
      ⟨true, some ⟨200, .basic, "home"⟩,
       [("https://ruzanovafit.com/index.html", ⟨200, .basic, "home"⟩)], true⟩ ∧
    fetchHandler "https://ruzanovafit.com"
        ⟨"GET", "https://ruzanovafit.com/extra.js", "script"⟩ [] none =
      ⟨true, none, [], true⟩ :=
  ⟨(C8_offline_document_fallback "https://ruzanovafit.com"
      ⟨"GET", "https://ruzanovafit.com/booking.html", "document"⟩
      [("https://ruzanovafit.com/index.html", ⟨200, .basic, "home"⟩)]
      rfl (by decide) (by decide)).1 ⟨200, .basic, "home"⟩ rfl (by decide),
   (C8_offline_document_fallback "https://ruzanovafit.com"
      ⟨"GET", "https://ruzanovafit.com/extra.js", "script"⟩ [] rfl (by decide) rfl).2
      (Or.inl (by decide))⟩

end ServiceWorker
